import Mathlib

/-!
Verification of the namespace-cookie accessor
`net_get_netns_cookie` from `src/bpf/include/bpf_net_namespace.h`.

The accessor runs inside a BPF packet hook. Kernel memory is modelled as a
collection of partial field maps from pointers (natural numbers, with `0` the
null pointer) to stored values; `none` models unreadable memory, so a
`BPF_CORE_READ` through a bad or null pointer is absorbed to zero, exactly as
`bpf_probe_read_kernel` zeroes its destination on fault.  The load-time
feature probe `bpf_core_field_exists(((struct net*)0)->net_cookie)` is a
boolean component of the state.
-/

/-- Kernel memory and load-time configuration visible to the accessor.
Each field map gives, for a pointer, the value stored in the corresponding
named field of the pointed-to object (`none` when the memory is unreadable):
`dev_of p` is `((struct sk_buff *)p)->dev`, `sk_of p` is
`((struct sk_buff *)p)->sk`, `nd_net_net p` is
`((struct net_device *)p)->nd_net.net`, `skc_net_net p` is
`((struct sock *)p)->__sk_common.skc_net.net`, and `net_cookie p` is
`((struct net *)p)->net_cookie`.  `has_net_cookie` is the CO-RE feature
probe for the `net_cookie` field. -/
structure KernelState where
  has_net_cookie : Bool
  dev_of : Nat → Option Nat
  sk_of : Nat → Option Nat
  nd_net_net : Nat → Option Nat
  skc_net_net : Nat → Option Nat
  net_cookie : Nat → Option Nat

/-- One relocatable field read (`BPF_CORE_READ` step): reading through the
null pointer or unreadable memory faults, and the fault is absorbed to
zero. -/
def probeRead (f : Nat → Option Nat) (p : Nat) : Nat :=
  if p = 0 then 0 else (f p).getD 0

/-- The chained read `BPF_CORE_READ(dev, nd_net.net, net_cookie)`. -/
def dev_chain (st : KernelState) (d : Nat) : Nat :=
  probeRead st.net_cookie (probeRead st.nd_net_net d)

/-- The chained read `BPF_CORE_READ(sk, __sk_common.skc_net.net, net_cookie)`. -/
def sk_chain (st : KernelState) (s : Nat) : Nat :=
  probeRead st.net_cookie (probeRead st.skc_net_net s)

/-- `net_get_netns_cookie` from `src/bpf/include/bpf_net_namespace.h`:
gate on the feature probe, then return the device chain when the device
pointer is non-null, else the socket chain when the socket pointer is
non-null, else zero. -/
def net_get_netns_cookie (st : KernelState) (skb : Nat) : Nat :=
  if !st.has_net_cookie then 0
  else
    let dev := probeRead st.dev_of skb
    if dev ≠ 0 then dev_chain st dev
    else
      let sk := probeRead st.sk_of skb
      if sk ≠ 0 then sk_chain st sk
      else 0

/-- Instrumented copy of `net_get_netns_cookie` that also returns, in order,
the pointers handed to the safe read primitive (the trace of memory
touched). -/
def net_get_netns_cookieT (st : KernelState) (skb : Nat) : Nat × List Nat :=
  if !st.has_net_cookie then (0, [])
  else
    let dev := probeRead st.dev_of skb
    if dev ≠ 0 then
      let n := probeRead st.nd_net_net dev
      (probeRead st.net_cookie n, [skb, dev, n])
    else
      let sk := probeRead st.sk_of skb
      if sk ≠ 0 then
        let n := probeRead st.skc_net_net sk
        (probeRead st.net_cookie n, [skb, skb, sk, n])
      else (0, [skb, skb])

/-- A field map only stores 64-bit values. -/
def ReadsU64 (f : Nat → Option Nat) : Prop :=
  ∀ p v, f p = some v → v < 2 ^ 64

/-- All kernel memory visible to the accessor stores 64-bit values. -/
def Wf (st : KernelState) : Prop :=
  ReadsU64 st.dev_of ∧ ReadsU64 st.sk_of ∧ ReadsU64 st.nd_net_net ∧
    ReadsU64 st.skc_net_net ∧ ReadsU64 st.net_cookie

theorem probeRead_null (f : Nat → Option Nat) : probeRead f 0 = 0 := rfl

theorem probeRead_lt (f : Nat → Option Nat) (h : ReadsU64 f) (p : Nat) :
    probeRead f p < 2 ^ 64 := by
  unfold probeRead
  split
  · exact Nat.pos_pow_of_pos 64 (by decide)
  · cases hf : f p with
    | none => simp [Nat.pos_pow_of_pos 64 (by decide : 0 < 2)]
    | some v => simpa using h p v hf

/-- The instrumented accessor computes the same value as the accessor. -/
theorem net_get_netns_cookieT_fst (st : KernelState) (skb : Nat) :
    (net_get_netns_cookieT st skb).1 = net_get_netns_cookie st skb := by
  unfold net_get_netns_cookie net_get_netns_cookieT dev_chain sk_chain
  by_cases hb : st.has_net_cookie
  · by_cases hd : probeRead st.dev_of skb = 0
    · by_cases hs : probeRead st.sk_of skb = 0
      · simp [hb, hd, hs]
      · simp [hb, hd, hs]
    · simp [hb, hd]
  · simp [hb]

/-! Concrete kernel states used by witnesses and the counterexample. -/

/-- A state with both associations on packet `1`: device pointer `2` whose
namespace `3` has cookie `10`, socket pointer `4` whose namespace `5` has
cookie `11`. -/
def stBoth : KernelState where
  has_net_cookie := true
  dev_of := fun p => if p = 1 then some 2 else none
  sk_of := fun p => if p = 1 then some 4 else none
  nd_net_net := fun p => if p = 2 then some 3 else none
  skc_net_net := fun p => if p = 4 then some 5 else none
  net_cookie := fun p => if p = 3 then some 10 else if p = 5 then some 11 else none

/-- A state where packet `1` carries a non-null device pointer whose chain
reads a zero cookie, while its socket chain would read cookie `7`. -/
def stDevZero : KernelState where
  has_net_cookie := true
  dev_of := fun p => if p = 1 then some 2 else none
  sk_of := fun p => if p = 1 then some 4 else none
  nd_net_net := fun p => if p = 2 then some 3 else none
  skc_net_net := fun p => if p = 4 then some 5 else none
  net_cookie := fun p => if p = 3 then some 0 else if p = 5 then some 7 else none

/-- A state where packet `1` has a null device and socket pointer `4` whose
namespace `5` has cookie `66`. -/
def stSockOnly : KernelState where
  has_net_cookie := true
  dev_of := fun _ => some 0
  sk_of := fun p => if p = 1 then some 4 else none
  nd_net_net := fun _ => none
  skc_net_net := fun p => if p = 4 then some 5 else none
  net_cookie := fun p => if p = 5 then some 66 else none

/-- A state where packet `1` has neither a device nor a socket. -/
def stBare : KernelState where
  has_net_cookie := true
  dev_of := fun _ => some 0
  sk_of := fun _ => some 0
  nd_net_net := fun _ => none
  skc_net_net := fun _ => none
  net_cookie := fun _ => none

/-- A state on a kernel whose namespace descriptor lacks the cookie field. -/
def stNoFeature : KernelState where
  has_net_cookie := false
  dev_of := fun p => if p = 1 then some 2 else none
  sk_of := fun p => if p = 1 then some 4 else none
  nd_net_net := fun p => if p = 2 then some 3 else none
  skc_net_net := fun p => if p = 4 then some 5 else none
  net_cookie := fun p => if p = 3 then some 10 else if p = 5 then some 11 else none

/-- Same device chain for packet `1` as `stBoth` (device `2`, namespace `3`,
cookie `10`) but a completely different socket side: socket pointer `9`,
namespace `8`, cookie `99`. -/
def stOtherSock : KernelState where
  has_net_cookie := true
  dev_of := fun p => if p = 1 then some 2 else none
  sk_of := fun p => if p = 1 then some 9 else none
  nd_net_net := fun p => if p = 2 then some 3 else none
  skc_net_net := fun p => if p = 9 then some 8 else none
  net_cookie := fun p => if p = 3 then some 10 else if p = 8 then some 99 else none

/-- A state whose every field map stores `1` at every pointer. -/
def stOnes : KernelState where
  has_net_cookie := true
  dev_of := fun _ => some 1
  sk_of := fun _ => some 1
  nd_net_net := fun _ => some 1
  skc_net_net := fun _ => some 1
  net_cookie := fun _ => some 1

/-! Claim theorems. -/

/-- C2: when the feature probe is positive and the packet carries a non-null
device pointer whose backlink chain terminates at a namespace `n` holding a
cookie `c ≠ 0`, the accessor returns `c`. -/
theorem C2_device_cookie (st : KernelState) (skb d n c : Nat)
    (hb : st.has_net_cookie = true)
    (hd : probeRead st.dev_of skb = d) (hd0 : d ≠ 0)
    (hn : probeRead st.nd_net_net d = n) (hn0 : n ≠ 0)
    (hc : st.net_cookie n = some c) (_hc0 : c ≠ 0) :
    net_get_netns_cookie st skb = c := by
  unfold net_get_netns_cookie dev_chain
  simp only [hb, Bool.not_true, Bool.false_eq_true, if_false, hd, hn]
  rw [if_pos hd0]
  unfold probeRead
  rw [if_neg hn0, hc]
  rfl

theorem C2_device_cookie_witness : net_get_netns_cookie stBoth 1 = 10 :=
  C2_device_cookie stBoth 1 2 3 10 rfl rfl (by decide) rfl (by decide) rfl
    (by decide)

/-- C3: when the feature probe is positive, the device pointer is null, and
the packet carries a non-null socket pointer whose backlink chain terminates
at a namespace `n` holding a cookie `c ≠ 0`, the accessor returns `c`. -/
theorem C3_socket_cookie (st : KernelState) (skb s n c : Nat)
    (hb : st.has_net_cookie = true)
    (hd : probeRead st.dev_of skb = 0)
    (hs : probeRead st.sk_of skb = s) (hs0 : s ≠ 0)
    (hn : probeRead st.skc_net_net s = n) (hn0 : n ≠ 0)
    (hc : st.net_cookie n = some c) (_hc0 : c ≠ 0) :
    net_get_netns_cookie st skb = c := by
  unfold net_get_netns_cookie sk_chain
  simp only [hb, Bool.not_true, Bool.false_eq_true, if_false, hd, hs, hn,
    ne_eq, not_true_eq_false, if_false]
  rw [if_pos hs0]
  unfold probeRead
  rw [if_neg hn0, hc]
  rfl

theorem C3_socket_cookie_witness : net_get_netns_cookie stSockOnly 1 = 66 :=
  C3_socket_cookie stSockOnly 1 4 5 66 rfl rfl rfl (by decide) rfl (by decide)
    rfl (by decide)

/-- C4: a packet with a null device pointer and a null socket pointer
resolves to zero. -/
theorem C4_bare_packet (st : KernelState) (skb : Nat)
    (hd : probeRead st.dev_of skb = 0)
    (hs : probeRead st.sk_of skb = 0) :
    net_get_netns_cookie st skb = 0 := by
  unfold net_get_netns_cookie
  by_cases hb : st.has_net_cookie
  · simp [hb, hd, hs]
  · simp [hb]

theorem C4_bare_packet_witness : net_get_netns_cookie stBare 1 = 0 :=
  C4_bare_packet stBare 1 rfl rfl

/-- C5: when the feature probe is negative the accessor returns zero for
every packet, and the instrumented accessor shows it does so with an empty
read trace, touching no pointer. -/
theorem C5_probe_negative (st : KernelState) (skb : Nat)
    (hb : st.has_net_cookie = false) :
    net_get_netns_cookie st skb = 0 ∧ net_get_netns_cookieT st skb = (0, []) := by
  unfold net_get_netns_cookie net_get_netns_cookieT
  simp [hb]

theorem C5_probe_negative_witness :
    net_get_netns_cookie stNoFeature 1 = 0 ∧
      net_get_netns_cookieT stNoFeature 1 = (0, []) :=
  C5_probe_negative stNoFeature 1 rfl

/-- C6: when both associations are present, the device chain reading cookie
`a ≠ 0` and the socket chain reading cookie `b ≠ 0` with `a ≠ b`, the
accessor returns the device cookie `a`. -/
theorem C6_device_first (st : KernelState) (skb d s a b : Nat)
    (hb : st.has_net_cookie = true)
    (hd : probeRead st.dev_of skb = d) (hd0 : d ≠ 0)
    (_hs : probeRead st.sk_of skb = s) (_hs0 : s ≠ 0)
    (ha : dev_chain st d = a) (_ha0 : a ≠ 0)
    (_hbch : sk_chain st s = b) (_hb0 : b ≠ 0) (_hab : a ≠ b) :
    net_get_netns_cookie st skb = a := by
  unfold net_get_netns_cookie
  simp only [hb, Bool.not_true, Bool.false_eq_true, if_false, hd, ha]
  rw [if_pos hd0]

theorem C6_device_first_witness : net_get_netns_cookie stBoth 1 = 10 :=
  C6_device_first stBoth 1 2 4 10 11 rfl rfl (by decide) rfl (by decide) rfl
    (by decide) rfl (by decide) (by decide)

/-- C9: when the packet descriptor pointer itself is null, every relocatable
read on it is absorbed to zero, so both the device and socket pointers read
as null and the accessor returns zero for every kernel state. -/
theorem C9_null_skb (st : KernelState) : net_get_netns_cookie st 0 = 0 := by
  unfold net_get_netns_cookie
  by_cases hb : st.has_net_cookie
  · simp [hb, probeRead_null]
  · simp [hb]

/-- C1 counterexample: in `stDevZero` the packet's device pointer is
non-null, the device chain reads zero, and the socket chain reads the
non-zero cookie `7`, yet the accessor returns `0`, not `7`: a zero device
chain does not make the dispatcher try the socket path. -/
theorem C1_counterexample :
    probeRead stDevZero.dev_of 1 = 2 ∧
      dev_chain stDevZero 2 = 0 ∧
      probeRead stDevZero.sk_of 1 = 4 ∧
      sk_chain stDevZero 4 = 7 ∧
      net_get_netns_cookie stDevZero 1 = 0 := by
  refine ⟨rfl, by decide, rfl, by decide, by decide⟩

/-- C1 amended: the accessor never falls back to the socket path on a zero
device chain; it returns zero iff the feature probe is negative, or the
device pointer is non-null and the device chain reads zero, or the device
pointer is null and the socket pointer is non-null and the socket chain
reads zero, or both pointers are null. -/
theorem C1_amended_zero_iff (st : KernelState) (skb : Nat) :
    net_get_netns_cookie st skb = 0 ↔
      st.has_net_cookie = false ∨
      (probeRead st.dev_of skb ≠ 0 ∧ dev_chain st (probeRead st.dev_of skb) = 0) ∨
      (probeRead st.dev_of skb = 0 ∧ probeRead st.sk_of skb ≠ 0 ∧
        sk_chain st (probeRead st.sk_of skb) = 0) ∨
      (probeRead st.dev_of skb = 0 ∧ probeRead st.sk_of skb = 0) := by
  unfold net_get_netns_cookie
  by_cases hb : st.has_net_cookie
  · by_cases hd : probeRead st.dev_of skb = 0
    · by_cases hs : probeRead st.sk_of skb = 0
      · simp [hb, hd, hs]
      · simp [hb, hd, hs]
    · simp [hb, hd]
  · simp [hb]

/-- C7: the accessor is deterministic and referentially transparent: two
invocations against kernel states whose referenced memory and feature probe
agree return the same value. -/
theorem C7_deterministic (st1 st2 : KernelState) (skb : Nat)
    (hb : st1.has_net_cookie = st2.has_net_cookie)
    (h1 : ∀ p, st1.dev_of p = st2.dev_of p)
    (h2 : ∀ p, st1.sk_of p = st2.sk_of p)
    (h3 : ∀ p, st1.nd_net_net p = st2.nd_net_net p)
    (h4 : ∀ p, st1.skc_net_net p = st2.skc_net_net p)
    (h5 : ∀ p, st1.net_cookie p = st2.net_cookie p) :
    net_get_netns_cookie st1 skb = net_get_netns_cookie st2 skb := by
  have heq : st1 = st2 := by
    cases st1
    cases st2
    simp only [KernelState.mk.injEq]
    exact ⟨hb, funext h1, funext h2, funext h3, funext h4, funext h5⟩
  rw [heq]

theorem C7_deterministic_witness :
    net_get_netns_cookie stBoth 1 = net_get_netns_cookie stBoth 1 :=
  C7_deterministic stBoth stBoth 1 rfl (fun _ => rfl) (fun _ => rfl)
    (fun _ => rfl) (fun _ => rfl) (fun _ => rfl)

/-- C8: on well-formed kernel memory the accessor is total: it evaluates on
every state and packet (it is a Lean function) and its result fits in 64
bits. -/
theorem C8_total_u64 (st : KernelState) (skb : Nat) (h : Wf st) :
    net_get_netns_cookie st skb < 2 ^ 64 := by
  obtain ⟨-, -, -, -, hcook⟩ := h
  unfold net_get_netns_cookie dev_chain sk_chain
  by_cases hb : st.has_net_cookie
  · by_cases hd : probeRead st.dev_of skb = 0
    · by_cases hs : probeRead st.sk_of skb = 0
      · simp [hb, hd, hs, Nat.pos_pow_of_pos 64 (by decide : 0 < 2)]
      · simp only [hb, Bool.not_true, Bool.false_eq_true, if_false, hd]
        simpa [hd, hs] using probeRead_lt st.net_cookie hcook
          (probeRead st.skc_net_net (probeRead st.sk_of skb))
    · simp only [hb, Bool.not_true, Bool.false_eq_true, if_false]
      simpa [hd] using probeRead_lt st.net_cookie hcook
        (probeRead st.nd_net_net (probeRead st.dev_of skb))
  · simp [hb, Nat.pos_pow_of_pos 64 (by decide : 0 < 2)]

theorem C8_total_u64_witness :
    Wf stOnes ∧ net_get_netns_cookie stOnes 1 < 2 ^ 64 := by
  have hw : Wf stOnes := by
    refine ⟨?_, ?_, ?_, ?_, ?_⟩ <;>
      exact fun p v h => by
        simp only [stOnes, Option.some.injEq] at h
        subst h
        decide
  exact ⟨hw, C8_total_u64 stOnes 1 hw⟩

/-- C10: when the packet's device pointer is non-null, the accessor depends
only on the device chain: two states with the same feature probe and the
same device pointer, namespace backlink, and cookie reads give the same
result, however their socket pointers and socket chain contents differ. -/
theorem C10_dev_noninterference (st1 st2 : KernelState) (skb : Nat)
    (hb : st1.has_net_cookie = st2.has_net_cookie)
    (hd : probeRead st1.dev_of skb = probeRead st2.dev_of skb)
    (hd0 : probeRead st1.dev_of skb ≠ 0)
    (_hn : probeRead st1.nd_net_net (probeRead st1.dev_of skb)
        = probeRead st2.nd_net_net (probeRead st2.dev_of skb))
    (hc : probeRead st1.net_cookie (probeRead st1.nd_net_net (probeRead st1.dev_of skb))
        = probeRead st2.net_cookie (probeRead st2.nd_net_net (probeRead st2.dev_of skb))) :
    net_get_netns_cookie st1 skb = net_get_netns_cookie st2 skb := by
  have hd0b : probeRead st2.dev_of skb ≠ 0 := hd ▸ hd0
  unfold net_get_netns_cookie dev_chain
  rw [← hb]
  by_cases hbt : st1.has_net_cookie
  · simp only [hbt, Bool.not_true, Bool.false_eq_true, if_false]
    rw [if_pos hd0, if_pos hd0b]
    exact hc
  · simp [hbt]

theorem C10_dev_noninterference_witness :
    net_get_netns_cookie stBoth 1 = net_get_netns_cookie stOtherSock 1 :=
  C10_dev_noninterference stBoth stOtherSock 1 rfl rfl (by decide) rfl
    (by decide)
